import Mathlib

/-!
Verification of the robot-spider-control mock servers
(`src/mock_robot/mock_robot_server.py` and
`src/mock_robot/mock_bluetooth_server.py`).

The Python code is shallowly embedded: raw client messages are `List Char`,
the per-message body of each `handle_client` loop becomes a pure function
from server state and message to new state plus the list of frames written
back to the client, and the try/except/finally structure of the handlers,
the startup paths and the shutdown paths become explicit functions over
small outcome types.  `str.lower` is modelled on the ASCII range, which is
exact on every input the claims concern.
-/

namespace RobotSpider

/-- Raw text as exchanged on the wire (one message after decoding). -/
abbrev RawText := List Char

/-- Model of Python `str.strip`'s whitespace class (ASCII range). -/
def isPyWhitespace (c : Char) : Bool :=
  c == ' ' || c == '\t' || c == '\n' || c == '\x0d' || c == '\x0b' || c == '\x0c'

/-- Model of Python `str.strip()`: drop whitespace from both ends. -/
def pyStrip (s : RawText) : RawText :=
  ((s.dropWhile isPyWhitespace).reverse.dropWhile isPyWhitespace).reverse

/-- Model of Python `str.lower()` (ASCII case folding). -/
def pyLower (s : RawText) : RawText :=
  s.map Char.toLower

/-- `message.strip().lower()` as performed at the top of each handler loop
(`mock_robot_server.py:111`, `mock_bluetooth_server.py:174`). -/
def canonicalize (message : RawText) : RawText :=
  pyLower (pyStrip message)

/-- `VALID_COMMANDS = {"init", "forward", "backward", "left", "right"}`
(`mock_robot_server.py:28`, `mock_bluetooth_server.py:40`). -/
def VALID_COMMANDS : List RawText :=
  ["init".toList, "forward".toList, "backward".toList, "left".toList, "right".toList]

/-- `command in VALID_COMMANDS` membership test. -/
def isValidCommand (command : RawText) : Bool :=
  VALID_COMMANDS.contains command

/-- An apostrophe character, used in the error acknowledgment frame. -/
def quoteChar : Char := '\x27'

/-- The acknowledgment frame `f"OK:{command}"` (`mock_robot_server.py:120`). -/
def okMessage (command : RawText) : RawText :=
  "OK:".toList ++ command

/-- The error frame sent on an invalid command,
`f"ERROR:Unknown command \x7bcommand\x7d"` with the text single-quoted
(`mock_robot_server.py:127`). -/
def errorMessage (text : RawText) : RawText :=
  "ERROR:Unknown command ".toList ++ [quoteChar] ++ text ++ [quoteChar]

/-- The mutable server fields touched by one message of `handle_client`.
`send_acks` and `command_count` exist with these names in both server
classes (`MockRobotServer.__init__`, `MockBluetoothRobotServer.__init__`). -/
structure ServerState where
  send_acks : Bool
  command_count : Nat
  deriving Repr, DecidableEq

/-- A fresh server as built by `__init__` with a given `--acks` setting. -/
def mkServer (acks : Bool) : ServerState :=
  { send_acks := acks, command_count := 0 }

/-- The body of the per-message loop shared verbatim by
`MockRobotServer.handle_client` (lines 109-127) and
`MockBluetoothRobotServer.handle_client` (lines 174-190): canonicalize the
message, and either bump `command_count` and optionally ack `OK:<command>`,
or leave the counter alone and optionally ack the error frame built from
the canonicalized text.  The second component lists the frames written
back to the client, in order. -/
def processMessage (st : ServerState) (message : RawText) :
    ServerState × List RawText :=
  let command := canonicalize message
  if isValidCommand command then
    ({ st with command_count := st.command_count + 1 },
     if st.send_acks then [okMessage command] else [])
  else
    (st, if st.send_acks then [errorMessage command] else [])

/-- Fold `processMessage` over a cross-session interleaving of messages,
each tagged with the originating session; the handlers run in one
scheduling domain so the shared counter sees some total order of
messages.  Collects every frame written back, in order. -/
def processAll (st : ServerState) (msgs : List (Nat × RawText)) :
    ServerState × List RawText :=
  match msgs with
  | [] => (st, [])
  | p :: rest =>
      let r1 := processMessage st p.2
      let r2 := processAll r1.1 rest
      (r2.1, r1.2 ++ r2.2)

/-- Number of messages in an interleaving that the servers classify as
valid commands. -/
def countValid (msgs : List (Nat × RawText)) : Nat :=
  (msgs.filter (fun p => isValidCommand (canonicalize p.2))).length

/-- Fold `processMessage` over the messages of a single session. -/
def processMessages (st : ServerState) (msgs : List RawText) :
    ServerState × List RawText :=
  match msgs with
  | [] => (st, [])
  | m :: rest =>
      let r1 := processMessage st m
      let r2 := processMessages r1.1 rest
      (r2.1, r1.2 ++ r2.2)

/-- Python exceptions distinguished by the except clauses of the two
handlers: `websockets.exceptions.ConnectionClosed`,
`bluetooth.BluetoothError`, and every other `Exception`. -/
inductive PyExn where
  | connectionClosed
  | btError
  | exception
  deriving Repr, DecidableEq

/-- `set.add`: Python set insertion (no duplicate membership). -/
def pySetAdd (s : List Nat) (x : Nat) : List Nat :=
  if s.contains x then s else s ++ [x]

/-- `set.discard`: removes the element's membership entirely. -/
def pySetDiscard (s : List Nat) (x : Nat) : List Nat :=
  s.filter (fun y => y ≠ x)

/-- State of `MockRobotServer` visible to `handle_client`: the shared
fields plus the `connected_clients` set (sessions identified by `Nat`). -/
structure WsState where
  core : ServerState
  connected_clients : List Nat
  deriving Repr, DecidableEq

/-- How the `async for message in websocket` loop of
`MockRobotServer.handle_client` stops after the listed messages: the
iterator ends (peer closed cleanly), `ConnectionClosed` is raised
(abnormal disconnect, or the server closing the connection at shutdown),
or some other exception is raised. -/
inductive WsEnding where
  | streamEnd
  | connClosed
  | otherExn
  deriving Repr, DecidableEq

/-- The `try` body of `MockRobotServer.handle_client` (lines 108-127):
mutations performed before a raise persist; the third component is the
exception leaving the body, if any. -/
def wsBody (st : ServerState) (msgs : List RawText) (ending : WsEnding) :
    ServerState × List RawText × Option PyExn :=
  let r := processMessages st msgs
  match ending with
  | .streamEnd => (r.1, r.2, none)
  | .connClosed => (r.1, r.2, some .connectionClosed)
  | .otherExn => (r.1, r.2, some .exception)

/-- `MockRobotServer.handle_client` (lines 96-135): add the session to
`connected_clients`, run the message loop, route any exception through
the two except arms (`ConnectionClosed` → log_info, `Exception` →
log_error), then in `finally` discard the session from the set.  Returns
the new state, the frames written to the client, and the exception
propagating out of the handler, if any. -/
def handle_client (st : WsState) (sid : Nat) (msgs : List RawText)
    (ending : WsEnding) : WsState × List RawText × Option PyExn :=
  let clients1 := pySetAdd st.connected_clients sid
  let r := wsBody st.core msgs ending
  let propagated : Option PyExn :=
    match r.2.2 with
    | none => none
    | some .connectionClosed => none
    | some .btError => none
    | some .exception => none
  let clients2 := pySetDiscard clients1 sid
  (⟨r.1, clients2⟩, r.2.1, propagated)

/-- State of `MockBluetoothRobotServer` visible to its `handle_client`:
shared fields, the `running` flag, and the `client_sock` slot (socket
handles identified by `Nat`, `none` once released). -/
structure BtState where
  core : ServerState
  running : Bool
  client_sock : Option Nat
  deriving Repr, DecidableEq

/-- How the `while self.running` loop of
`MockBluetoothRobotServer.handle_client` stops after the listed
messages: a zero-length `recv` (peer disconnect), the `running` flag
observed false (server shutdown), a `BluetoothError` (transport error),
or some other exception. -/
inductive BtEnding where
  | emptyRead
  | runningFalse
  | btError
  | otherExn
  deriving Repr, DecidableEq

/-- The `try` body of `MockBluetoothRobotServer.handle_client` (lines
166-190).  If `running` is already false the loop body never runs. -/
def btBody (st : ServerState) (running : Bool) (msgs : List RawText)
    (ending : BtEnding) : ServerState × List RawText × Option PyExn :=
  let r := processMessages st (if running then msgs else [])
  match ending with
  | .emptyRead => (r.1, r.2, none)
  | .runningFalse => (r.1, r.2, none)
  | .btError => (r.1, r.2, some .btError)
  | .otherExn => (r.1, r.2, some .exception)

/-- `MockBluetoothRobotServer.handle_client` (lines 159-202): run the
message loop, route any exception through the except arms
(`BluetoothError` → log_info disconnected, `Exception` → log_error),
then in `finally` close `client_sock` if set (the close itself guarded
by try/except) and null the slot.  The third component lists the socket
handles on which `close()` was invoked; the fourth is the exception
propagating out, if any. -/
def bt_handle_client (st : BtState) (msgs : List RawText)
    (ending : BtEnding) : BtState × List RawText × List Nat × Option PyExn :=
  let r := btBody st.core st.running msgs ending
  let propagated : Option PyExn :=
    match r.2.2 with
    | none => none
    | some .connectionClosed => none
    | some .btError => none
    | some .exception => none
  match st.client_sock with
  | some s => (⟨r.1, st.running, none⟩, r.2.1, [s], propagated)
  | none => (⟨r.1, st.running, none⟩, r.2.1, [], propagated)

/-- `MockBluetoothRobotServer.shutdown` (lines 204-228): clear `running`,
close `client_sock` if still set, stop advertising and close the server
socket (each guarded), and log the command-count summary.  Returns the
new state, the client-socket handles closed here, and the summary
count. -/
def btShutdown (st : BtState) : BtState × List Nat × Nat :=
  match st.client_sock with
  | some s => (⟨st.core, false, st.client_sock⟩, [s], st.core.command_count)
  | none => (⟨st.core, false, st.client_sock⟩, [], st.core.command_count)

/-- Where `MockBluetoothRobotServer.start` (lines 95-157) fails, if at
all: `BluetoothError` from socket creation/bind/listen, `BluetoothError`
from `advertise_service`, or neither. -/
inductive BtStartOutcome where
  | bindFails
  | advertiseFails
  | ok
  deriving Repr, DecidableEq

/-- Observable outcome of running the Bluetooth server process. -/
structure BtRunReport where
  enteredAcceptLoop : Bool
  loggedStartupError : Bool
  ranShutdown : Bool
  raised : Option PyExn
  deriving Repr, DecidableEq

/-- `MockBluetoothRobotServer.start` control flow: creation, bind, listen
and `advertise_service` sit in one `try`; a `BluetoothError` from any of
them is caught (lines 149-152: two `log_error` calls, then `return`), a
plain `Exception` likewise (lines 153-155), and `finally` runs
`shutdown()` (line 157).  Only on success is `running` set and the
accept loop entered. -/
def bt_start (outcome : BtStartOutcome) : BtRunReport :=
  match outcome with
  | .bindFails =>
      { enteredAcceptLoop := false, loggedStartupError := true,
        ranShutdown := true, raised := none }
  | .advertiseFails =>
      { enteredAcceptLoop := false, loggedStartupError := true,
        ranShutdown := true, raised := none }
  | .ok =>
      { enteredAcceptLoop := true, loggedStartupError := false,
        ranShutdown := true, raised := none }

/-- Exit status of the Bluetooth server process.  `main` (lines 237-256)
calls `server.start()` and returns; an exception escaping `start` would
end the process with status 1, a normal return ends it with status 0. -/
def bt_main (outcome : BtStartOutcome) : BtRunReport × Nat :=
  let rep := bt_start outcome
  (rep, match rep.raised with | none => 0 | some _ => 1)

/-- Where `MockRobotServer.register_mdns` (lines 137-165) fails, if at
all: the `Zeroconf()` constructor raising, `register_service` raising,
or neither.  Both failure points are inside its `except Exception`. -/
inductive MdnsRegOutcome where
  | ok
  | zeroconfCtorFails
  | registerFails
  deriving Repr, DecidableEq

/-- Which of `self.zeroconf` / `self.service_info` are non-None after
`register_mdns`.  The `service_info` assignment precedes the
`register_service` call, so a registration failure leaves both set; a
constructor failure leaves both `None`. -/
structure MdnsHandles where
  zeroconf : Bool
  service_info : Bool
  deriving Repr, DecidableEq

/-- `MockRobotServer.register_mdns`: any exception is caught, a
`log_error` plus the `log_warning` about running without mDNS is
emitted, and the method returns normally.  Returns the handle state, the
warning flag, and the exception propagating out (if any). -/
def register_mdns (o : MdnsRegOutcome) : MdnsHandles × Bool × Option PyExn :=
  match o with
  | .ok => (⟨true, true⟩, false, none)
  | .zeroconfCtorFails => (⟨false, false⟩, true, none)
  | .registerFails => (⟨true, true⟩, true, none)

/-- Observable outcome of `MockRobotServer.start` (lines 194-224). -/
structure WsStartReport where
  enteredServeLoop : Bool
  mdnsWarningLogged : Bool
  raised : Option PyExn
  deriving Repr, DecidableEq

/-- `MockRobotServer.start`: banner, `register_mdns` (whose failure is
internal to it), then `websockets.serve`.  A bind failure raises
`OSError` out of `start` uncaught; otherwise the serve loop is entered
regardless of the mDNS outcome. -/
def ws_start (bindFails : Bool) (mdns : MdnsRegOutcome) : WsStartReport :=
  let warned := (register_mdns mdns).2.1
  if bindFails then
    { enteredServeLoop := false, mdnsWarningLogged := warned,
      raised := some .exception }
  else
    { enteredServeLoop := true, mdnsWarningLogged := warned, raised := none }

/-- Exit status of the WebSocket server process: `main` (lines 234-254)
wraps `start` in try/except KeyboardInterrupt/finally shutdown, and the
top level (lines 257-265) catches only `KeyboardInterrupt` and
`CancelledError`, so an `OSError` from binding escapes and the
interpreter exits with status 1; a normal return exits with status 0.
`shutdown` runs in the `finally` on both paths. -/
def ws_main (bindFails : Bool) (mdns : MdnsRegOutcome) :
    WsStartReport × Bool × Nat :=
  let rep := ws_start bindFails mdns
  (rep, true, match rep.raised with | none => 0 | some _ => 1)

/-- The `signal.alarm(2)` bound of `MockRobotServer.unregister_mdns`
(line 179). -/
def UNREGISTER_TIMEOUT_SECONDS : Nat := 2

/-- How the zeroconf retraction in `unregister_mdns` behaves: responds
before the alarm, hangs past the 2-second alarm (the `SIGALRM` handler
raises `TimeoutError`), or raises some other exception. -/
inductive UnregOutcome where
  | responds
  | hangs
  | raisesOther
  deriving Repr, DecidableEq

/-- Observable outcome of `MockRobotServer.unregister_mdns`. -/
structure RetractReport where
  attempted : Bool
  timedOutWarning : Bool
  cleanupErrorWarning : Bool
  unregisteredLogged : Bool
  raised : Option PyExn
  deriving Repr, DecidableEq

/-- `MockRobotServer.unregister_mdns` (lines 167-192): only acts when
both handles are set; installs the alarm handler with a 2-second alarm;
a hang becomes a `TimeoutError` caught at line 189 (warning: will expire
naturally), any other exception is caught at line 191 (cleanup warning);
nothing propagates. -/
def unregister_mdns (handles : MdnsHandles) (o : UnregOutcome) :
    RetractReport :=
  if handles.zeroconf && handles.service_info then
    match o with
    | .responds =>
        { attempted := true, timedOutWarning := false,
          cleanupErrorWarning := false, unregisteredLogged := true,
          raised := none }
    | .hangs =>
        { attempted := true, timedOutWarning := true,
          cleanupErrorWarning := false, unregisteredLogged := false,
          raised := none }
    | .raisesOther =>
        { attempted := true, timedOutWarning := false,
          cleanupErrorWarning := true, unregisteredLogged := false,
          raised := none }
  else
    { attempted := false, timedOutWarning := false,
      cleanupErrorWarning := false, unregisteredLogged := false,
      raised := none }

/-- `MockRobotServer.shutdown` (lines 226-231): always calls
`unregister_mdns`, then always logs the total-commands summary.  Returns
the retraction report and the summary count. -/
def ws_shutdown (st : ServerState) (handles : MdnsHandles)
    (o : UnregOutcome) : RetractReport × Nat :=
  (unregister_mdns handles o, st.command_count)

/-- The fallible socket operations `get_local_ip` performs, as an
environment: `socket.socket(...)`, `s.connect(("8.8.8.8", 80))`,
`s.getsockname()[0]`, `s.close()`. -/
structure NetEnv where
  socketCreate : Except PyExn Nat
  connectProbe : Nat → Except PyExn Unit
  getsockname : Nat → Except PyExn RawText
  closeSock : Nat → Except PyExn Unit

/-- The body of `get_local_ip`'s `try` block (lines 43-48), as the
sequenced fallible pipeline. -/
def localIpProbe (env : NetEnv) : Except PyExn RawText := do
  let s ← env.socketCreate
  env.connectProbe s
  let ip ← env.getsockname s
  env.closeSock s
  pure ip

/-- `get_local_ip` (lines 40-50): the probe's result on success, and the
literal `"127.0.0.1"` when any step raises (`except Exception`). -/
def get_local_ip (env : NetEnv) : RawText :=
  match localIpProbe env with
  | .ok ip => ip
  | .error _ => "127.0.0.1".toList

/-- An environment whose socket creation raises, exercising the
fallback path of `get_local_ip`. -/
def failEnv : NetEnv :=
  { socketCreate := Except.error PyExn.exception,
    connectProbe := fun _ => Except.ok (),
    getsockname := fun _ => Except.ok [],
    closeSock := fun _ => Except.ok () }

/-! ## Helper lemmas -/

theorem processMessage_count (st : ServerState) (m : RawText) :
    (processMessage st m).1.command_count
      = st.command_count + (if isValidCommand (canonicalize m) then 1 else 0) := by
  cases h : isValidCommand (canonicalize m) <;> simp [processMessage, h]

theorem processMessage_acks (st : ServerState) (m : RawText) :
    (processMessage st m).1.send_acks = st.send_acks := by
  cases h : isValidCommand (canonicalize m) <;> simp [processMessage, h]

theorem countValid_cons (p : Nat × RawText) (rest : List (Nat × RawText)) :
    countValid (p :: rest)
      = (if isValidCommand (canonicalize p.2) then 1 else 0) + countValid rest := by
  cases h : isValidCommand (canonicalize p.2) <;>
    simp [countValid, List.filter_cons, h, Nat.add_comm]

theorem processAll_count (msgs : List (Nat × RawText)) : ∀ st : ServerState,
    (processAll st msgs).1.command_count = st.command_count + countValid msgs := by
  induction msgs with
  | nil => intro st; simp [processAll, countValid]
  | cons p rest ih =>
      intro st
      simp only [processAll]
      rw [ih, processMessage_count, countValid_cons]
      omega

/-! ## Claims -/

/-- C1: across any cross-session interleaving of received messages the
cumulative `command_count` equals its starting value plus the number of
messages classified as valid commands — so from a fresh server it is
exactly N after N valid and M invalid messages — it is monotonically
non-decreasing, and processing a message classified invalid leaves it
unchanged. -/
theorem C1_command_count_invariant (acks : Bool) (st : ServerState)
    (msgs : List (Nat × RawText)) (m : RawText)
    (h : isValidCommand (canonicalize m) = false) :
    (processAll (mkServer acks) msgs).1.command_count = countValid msgs
  ∧ (processAll st msgs).1.command_count = st.command_count + countValid msgs
  ∧ st.command_count ≤ (processAll st msgs).1.command_count
  ∧ (processMessage st m).1.command_count = st.command_count := by
  refine ⟨?_, processAll_count msgs st, ?_, ?_⟩
  · rw [processAll_count]; simp [mkServer]
  · rw [processAll_count]; exact Nat.le_add_right _ _
  · rw [processMessage_count, h]; simp

/-- Witness for C1: one valid and one invalid message from a fresh
server leave the counter at exactly 1. -/
theorem C1_command_count_invariant_witness :
    isValidCommand (canonicalize ("jump".toList)) = false
  ∧ (processAll (mkServer false)
        [(0, "forward".toList), (1, "jump".toList)]).1.command_count
      = countValid [(0, "forward".toList), (1, "jump".toList)] :=
  ⟨by decide,
   (C1_command_count_invariant false (mkServer false)
      [(0, "forward".toList), (1, "jump".toList)] ("jump".toList)
      (by decide)).1⟩

/-- C2: a message whose trimmed, case-folded form passes the server's
`command in VALID_COMMANDS` test is processed as that canonical
lower-case command: the counter is incremented and, exactly when
acknowledgments are enabled, the single reply `OK:<command>` is
written. -/
theorem C2_valid_command_ack (st : ServerState) (msg : RawText)
    (h : isValidCommand (canonicalize msg) = true) :
    processMessage st msg =
      ({ st with command_count := st.command_count + 1 },
       if st.send_acks then [okMessage (canonicalize msg)] else []) := by
  simp [processMessage, h]

/-- Witness for C2: the case permutation `FoRwArD` with acknowledgments
enabled yields exactly the reply `OK:forward`. -/
theorem C2_valid_command_ack_witness :
    isValidCommand (canonicalize ("FoRwArD".toList)) = true
  ∧ processMessage (mkServer true) ("FoRwArD".toList)
      = ({ send_acks := true, command_count := 1 }, ["OK:forward".toList]) := by
  refine ⟨by decide, ?_⟩
  rw [C2_valid_command_ack (mkServer true) ("FoRwArD".toList) (by decide)]
  decide

/-- Counterexample to C3: the handler canonicalizes before branching
(`command = message.strip().lower()`), so for the invalid message
`JuMp` the error reply carries `jump`, not the original text `JuMp`
character for character. -/
theorem C3_counterexample :
    (processMessage { send_acks := true, command_count := 0 }
        ("JuMp".toList)).2
      = [errorMessage ("jump".toList)]
  ∧ errorMessage ("jump".toList) ≠ errorMessage ("JuMp".toList) := by
  decide

/-- C3 (amended): a message failing the `command in VALID_COMMANDS` test
leaves the state unchanged and, exactly when acknowledgments are
enabled, the single reply is `ERROR:Unknown command <text>` built from
the trimmed, case-folded text (not the original message). -/
theorem C3_invalid_command_reply (st : ServerState) (msg : RawText)
    (h : isValidCommand (canonicalize msg) = false) :
    processMessage st msg =
      (st, if st.send_acks then [errorMessage (canonicalize msg)] else []) := by
  simp [processMessage, h]

/-- Witness for C3 (amended): `spin` with acknowledgments enabled yields
exactly the reply from the spec's own example. -/
theorem C3_invalid_command_reply_witness :
    isValidCommand (canonicalize ("spin".toList)) = false
  ∧ processMessage (mkServer true) ("spin".toList)
      = (mkServer true, [errorMessage ("spin".toList)]) := by
  refine ⟨by decide, ?_⟩
  rw [C3_invalid_command_reply (mkServer true) ("spin".toList) (by decide)]
  decide

/-- C4: with acknowledgments disabled no frame is ever written back, and
the only state effect of a message is the counter increment on a valid
command (no change at all on an invalid one). -/
theorem C4_silent_when_acks_disabled (st : ServerState) (msg : RawText)
    (h : st.send_acks = false) :
    (processMessage st msg).2 = []
  ∧ (processMessage st msg).1 =
      { st with command_count :=
          st.command_count
            + (if isValidCommand (canonicalize msg) then 1 else 0) } := by
  obtain ⟨a, c⟩ := st
  simp only [ServerState.mk.injEq] at h ⊢
  subst h
  cases hv : isValidCommand (canonicalize msg) <;> simp [processMessage, hv]

/-- Witness for C4: `forward` against the default (acks disabled) server
produces no reply. -/
theorem C4_silent_when_acks_disabled_witness :
    (mkServer false).send_acks = false
  ∧ (processMessage (mkServer false) ("forward".toList)).2 = [] :=
  ⟨by decide,
   (C4_silent_when_acks_disabled (mkServer false) ("forward".toList)
      (by decide)).1⟩

/-- C5: on every termination path of a session handler the connection is
released exactly once and the session leaves the shared collection
before the handler returns: the WebSocket handler's `finally` discards
the session from `connected_clients` for every ending, and the
Bluetooth handler's `finally` closes the client socket exactly once and
nulls the slot, so a subsequent `shutdown` performs no second close. -/
theorem C5_session_cleanup (wst : WsState) (sid : Nat)
    (bst : BtState) (s : Nat) (msgs msgs2 : List RawText)
    (we : WsEnding) (be : BtEnding) (h : bst.client_sock = some s) :
    sid ∉ (handle_client wst sid msgs we).1.connected_clients
  ∧ (bt_handle_client bst msgs2 be).2.2.1 = [s]
  ∧ (bt_handle_client bst msgs2 be).1.client_sock = none
  ∧ (btShutdown (bt_handle_client bst msgs2 be).1).2.1 = [] := by
  refine ⟨?_, ?_, ?_, ?_⟩
  · simp [handle_client, pySetDiscard, List.mem_filter]
  · simp [bt_handle_client, h]
  · simp [bt_handle_client, h]
  · simp [btShutdown, bt_handle_client, h]

/-- Witness for C5: a concrete session on each transport is cleaned up. -/
theorem C5_session_cleanup_witness :
    (⟨⟨false, 0⟩, true, some 5⟩ : BtState).client_sock = some 5
  ∧ 0 ∉ (handle_client ⟨⟨false, 0⟩, []⟩ 0 []
        WsEnding.streamEnd).1.connected_clients
  ∧ (bt_handle_client ⟨⟨false, 0⟩, true, some 5⟩ []
        BtEnding.emptyRead).2.2.1 = [5] :=
  ⟨rfl,
   (C5_session_cleanup ⟨⟨false, 0⟩, []⟩ 0 ⟨⟨false, 0⟩, true, some 5⟩ 5
      [] [] WsEnding.streamEnd BtEnding.emptyRead rfl).1,
   (C5_session_cleanup ⟨⟨false, 0⟩, []⟩ 0 ⟨⟨false, 0⟩, true, some 5⟩ 5
      [] [] WsEnding.streamEnd BtEnding.emptyRead rfl).2.1⟩

/-- C6: for every ending of the message loop — including the two raised
exception classes — each session handler returns normally: no exception
propagates out of `handle_client` into the accept loop, on either
transport. -/
theorem C6_handler_catches_all (wst : WsState) (sid : Nat) (bst : BtState)
    (msgs msgs2 : List RawText) (we : WsEnding) (be : BtEnding) :
    (handle_client wst sid msgs we).2.2 = none
  ∧ (bt_handle_client bst msgs2 be).2.2.2 = none := by
  constructor
  · cases we <;> simp [handle_client, wsBody]
  · cases be <;> cases h : bst.client_sock <;>
      simp [bt_handle_client, btBody, h]

/-- Counterexample to C7: when the Bluetooth bind fails, `start` catches
the `BluetoothError`, logs it and returns, and `main` then returns
normally — the process exits with status 0 (success), not the failure
exit status the claim requires. -/
theorem C7_counterexample :
    (bt_main BtStartOutcome.bindFails).1.enteredAcceptLoop = false
  ∧ (bt_main BtStartOutcome.bindFails).1.loggedStartupError = true
  ∧ (bt_main BtStartOutcome.bindFails).2 = 0 := by
  decide

/-- C7 (amended): a bind or advertisement failure at startup is fatal in
the sense that the accept loop is never entered and no client is
served; the Bluetooth variant logs the cause but exits with success
status 0, while the WebSocket variant exits with failure status 1 via
the uncaught bind exception. -/
theorem C7_startup_failure_no_serving (o : BtStartOutcome)
    (m : MdnsRegOutcome) (h : o ≠ BtStartOutcome.ok) :
    (bt_main o).1.enteredAcceptLoop = false
  ∧ (bt_main o).1.loggedStartupError = true
  ∧ (bt_main o).2 = 0
  ∧ (ws_main true m).1.enteredServeLoop = false
  ∧ (ws_main true m).2.2 = 1 := by
  cases o with
  | ok => exact absurd rfl h
  | bindFails => cases m <;> decide
  | advertiseFails => cases m <;> decide

/-- Witness for C7 (amended): the bind-failure case at concrete
outcomes. -/
theorem C7_startup_failure_no_serving_witness :
    BtStartOutcome.bindFails ≠ BtStartOutcome.ok
  ∧ (ws_main true MdnsRegOutcome.ok).2.2 = 1 :=
  ⟨by decide,
   (C7_startup_failure_no_serving BtStartOutcome.bindFails
      MdnsRegOutcome.ok (by decide)).2.2.2.2⟩

/-- C8: every mDNS registration failure is swallowed inside
`register_mdns` (nothing propagates), the warning about running without
advertisement is logged exactly on failure, and `start` still enters
the serve loop. -/
theorem C8_mdns_failure_nonfatal (o : MdnsRegOutcome) :
    (register_mdns o).2.2 = none
  ∧ (ws_start false o).enteredServeLoop = true
  ∧ (ws_start false o).raised = none
  ∧ ((register_mdns o).2.1 = true ↔ o ≠ MdnsRegOutcome.ok) := by
  cases o <;> exact ⟨rfl, rfl, rfl, by decide⟩

/-- C9: with both zeroconf handles live, shutdown always attempts
retraction; when the discovery mechanism hangs past the alarm, the
timeout is downgraded to a logged warning and nothing propagates; the
command-count summary is emitted for every retraction outcome; and the
alarm bound is the source's 2 seconds. -/
theorem C9_retraction_timeout_and_summary (st : ServerState)
    (handles : MdnsHandles) (o : UnregOutcome)
    (h : handles = ⟨true, true⟩) :
    (ws_shutdown st handles o).1.attempted = true
  ∧ ((ws_shutdown st handles UnregOutcome.hangs).1.timedOutWarning = true
      ∧ (ws_shutdown st handles UnregOutcome.hangs).1.raised = none)
  ∧ (ws_shutdown st handles o).2 = st.command_count
  ∧ UNREGISTER_TIMEOUT_SECONDS = 2 := by
  subst h
  refine ⟨?_, ⟨rfl, rfl⟩, rfl, rfl⟩
  cases o <;> rfl

/-- Witness for C9: a hanging retraction on a live registration is
abandoned with the warning. -/
theorem C9_retraction_timeout_and_summary_witness :
    (⟨true, true⟩ : MdnsHandles) = ⟨true, true⟩
  ∧ (ws_shutdown (mkServer false) ⟨true, true⟩
        UnregOutcome.hangs).1.timedOutWarning = true :=
  ⟨rfl,
   (C9_retraction_timeout_and_summary (mkServer false) ⟨true, true⟩
      UnregOutcome.hangs rfl).2.1.1⟩

/-- C10: `get_local_ip` is total over every probe environment: it
returns the probed outbound-facing address when the probe succeeds, and
the literal `127.0.0.1` whenever any step of the probe raises — the
advertised address is always produced and startup never aborts here. -/
theorem C10_local_ip_never_fails (env : NetEnv) :
    ((∃ ip, localIpProbe env = Except.ok ip ∧ get_local_ip env = ip)
      ∨ get_local_ip env = "127.0.0.1".toList)
  ∧ (∀ e, localIpProbe env = Except.error e →
      get_local_ip env = "127.0.0.1".toList) := by
  constructor
  · cases h : localIpProbe env with
    | ok ip => exact Or.inl ⟨ip, rfl, by simp [get_local_ip, h]⟩
    | error e => exact Or.inr (by simp [get_local_ip, h])
  · intro e he
    simp [get_local_ip, he]

/-- Witness for C10: a failing socket creation yields the fallback. -/
theorem C10_local_ip_never_fails_witness :
    localIpProbe failEnv = Except.error PyExn.exception
  ∧ get_local_ip failEnv = "127.0.0.1".toList :=
  ⟨rfl, (C10_local_ip_never_fails failEnv).2 PyExn.exception rfl⟩

end RobotSpider
